import Mathlib

/-!
Verification development for the dustcast caching core (`src/app.py`).

Shallow embedding conventions:
* Python values that flow through the cache (pickled payloads, arguments)
  are modelled by the JSON-like type `PyValue`; Python floats are modelled
  as rationals (the numeric claims are about real-valued arithmetic).
* Wall-clock time (`time.time()`, file mtimes) is a rational number of
  seconds, passed explicitly.
* The on-disk cache (`cache/data/*.pkl` plus `cache/metadata/*`) is an
  association list from fingerprint keys to entries; an entry whose
  deserialisation would fail (a corrupt pickle) carries `.error`.
* File-system write failures are injected through explicit boolean oracles
  (`dataOk` for the payload file, `metaOk` for the metadata file).
* `np.sin(x * 2 * np.pi)` is abstracted as an arbitrary function
  `sin2pi : ℚ → ℚ` applied to `x`, and `np.random.random()` as an explicit
  stream `rand : ℕ → ℚ`; no claim depends on their values.
-/

/-- Python values as they appear in this program: strings, ints, floats
(modelled as rationals), lists and string-keyed dicts. The wrapped
operations of `app.py` only ever return dicts and lists of these. -/
inductive PyValue where
  | str : String → PyValue
  | int : Int → PyValue
  | rat : ℚ → PyValue
  | list : List PyValue → PyValue
  | dict : List (String × PyValue) → PyValue

mutual

def PyValue.decEq : (a b : PyValue) → Decidable (a = b)
  | .str a, .str b =>
    if h : a = b then isTrue (by rw [h]) else isFalse (fun hh => by cases hh; exact h rfl)
  | .int a, .int b =>
    if h : a = b then isTrue (by rw [h]) else isFalse (fun hh => by cases hh; exact h rfl)
  | .rat a, .rat b =>
    if h : a = b then isTrue (by rw [h]) else isFalse (fun hh => by cases hh; exact h rfl)
  | .list a, .list b =>
    match PyValue.decEqList a b with
    | isTrue h => isTrue (by rw [h])
    | isFalse h => isFalse (fun hh => by cases hh; exact h rfl)
  | .dict a, .dict b =>
    match PyValue.decEqDict a b with
    | isTrue h => isTrue (by rw [h])
    | isFalse h => isFalse (fun hh => by cases hh; exact h rfl)
  | .str _, .int _ => isFalse (fun h => by cases h)
  | .str _, .rat _ => isFalse (fun h => by cases h)
  | .str _, .list _ => isFalse (fun h => by cases h)
  | .str _, .dict _ => isFalse (fun h => by cases h)
  | .int _, .str _ => isFalse (fun h => by cases h)
  | .int _, .rat _ => isFalse (fun h => by cases h)
  | .int _, .list _ => isFalse (fun h => by cases h)
  | .int _, .dict _ => isFalse (fun h => by cases h)
  | .rat _, .str _ => isFalse (fun h => by cases h)
  | .rat _, .int _ => isFalse (fun h => by cases h)
  | .rat _, .list _ => isFalse (fun h => by cases h)
  | .rat _, .dict _ => isFalse (fun h => by cases h)
  | .list _, .str _ => isFalse (fun h => by cases h)
  | .list _, .int _ => isFalse (fun h => by cases h)
  | .list _, .rat _ => isFalse (fun h => by cases h)
  | .list _, .dict _ => isFalse (fun h => by cases h)
  | .dict _, .str _ => isFalse (fun h => by cases h)
  | .dict _, .int _ => isFalse (fun h => by cases h)
  | .dict _, .rat _ => isFalse (fun h => by cases h)
  | .dict _, .list _ => isFalse (fun h => by cases h)

def PyValue.decEqList : (a b : List PyValue) → Decidable (a = b)
  | [], [] => isTrue rfl
  | [], _ :: _ => isFalse (fun h => by cases h)
  | _ :: _, [] => isFalse (fun h => by cases h)
  | a :: as, b :: bs =>
    match PyValue.decEq a b with
    | isFalse h1 => isFalse (fun h => by cases h; exact h1 rfl)
    | isTrue h1 =>
      match PyValue.decEqList as bs with
      | isTrue h2 => isTrue (by rw [h1, h2])
      | isFalse h2 => isFalse (fun h => by cases h; exact h2 rfl)

def PyValue.decEqDict : (a b : List (String × PyValue)) → Decidable (a = b)
  | [], [] => isTrue rfl
  | [], _ :: _ => isFalse (fun h => by cases h)
  | _ :: _, [] => isFalse (fun h => by cases h)
  | (k, a) :: as, (l, b) :: bs =>
    if hk : k = l then
      match PyValue.decEq a b with
      | isFalse h1 => isFalse (fun h => by cases h; exact h1 rfl)
      | isTrue h1 =>
        match PyValue.decEqDict as bs with
        | isTrue h2 => isTrue (by rw [hk, h1, h2])
        | isFalse h2 => isFalse (fun h => by cases h; exact h2 rfl)
    else isFalse (fun h => by cases h; exact hk rfl)

end

instance : DecidableEq PyValue := PyValue.decEq

/-! ## Python rendering of values

`SmartCache.generate_cache_key` builds its digest input with `str(args)`
(a tuple repr) and `str(sorted(kwargs.items()))` (a list-of-pairs repr).
We model Python's `repr` on the values above; the exact float rendering is
abstracted as `toString` on ℚ, which affects no claim. -/

mutual

def pyRepr : PyValue → String
  | .str s => "'" ++ s ++ "'"
  | .int n => toString n
  | .rat q => toString q
  | .list xs => "[" ++ pyReprItems xs ++ "]"
  | .dict kvs => "\x7b" ++ pyReprPairs kvs ++ "\x7d"

def pyReprItems : List PyValue → String
  | [] => ""
  | [x] => pyRepr x
  | x :: xs => pyRepr x ++ ", " ++ pyReprItems xs

def pyReprPairs : List (String × PyValue) → String
  | [] => ""
  | [(k, v)] => "'" ++ k ++ "': " ++ pyRepr v
  | (k, v) :: kvs => "'" ++ k ++ "': " ++ pyRepr v ++ ", " ++ pyReprPairs kvs

end

/-- Python `str` of a tuple: `()`, `('x',)` (trailing comma on singletons),
or `(a, b, ...)`. -/
def pyStrTuple : List PyValue → String
  | [] => "()"
  | [x] => "(" ++ pyRepr x ++ ",)"
  | xs => "(" ++ pyReprItems xs ++ ")"

/-- Python `repr` of one `(name, value)` pair from `kwargs.items()`. -/
def pyReprKwItem (kv : String × PyValue) : String :=
  "('" ++ kv.1 ++ "', " ++ pyRepr kv.2 ++ ")"

/-- Python `str` of a list of `(name, value)` pairs. -/
def pyStrItemList (kvs : List (String × PyValue)) : String :=
  "[" ++ String.intercalate ", " (kvs.map pyReprKwItem) ++ "]"

/-- Comparison used by `sorted(kwargs.items())`: Python compares the tuples
lexicographically, which on keyword items (whose names are distinct, being
dict keys) never goes past the name. -/
def kwLE (a b : String × PyValue) : Bool := decide (a.1 ≤ b.1)

/-- Model of `sorted(kwargs.items())`. -/
def sortedKwItems (kwargs : List (String × PyValue)) : List (String × PyValue) :=
  kwargs.mergeSort kwLE

/-- Model of `SmartCache.generate_cache_key` (src/app.py:65-69):
`content = str(args) + str(sorted(kwargs.items()))`, then
`hashlib.md5(content.encode()).hexdigest()`. The md5 hexdigest is a fixed
function of the content string; it is abstracted as the parameter
`digest`. -/
def generate_cache_key (digest : String → String)
    (args : List PyValue) (kwargs : List (String × PyValue)) : String :=
  digest (pyStrTuple args ++ pyStrItemList (sortedKwItems kwargs))

/-! ## The cache store (`SmartCache`) -/

/-- Outcome of a Python call: a value, or a raised exception (its message). -/
inductive Fallible (α : Type) where
  | ok (val : α)
  | raised (msg : String)
deriving DecidableEq

/-- What `pickle.load` would yield for a stored data file: the payload, or
an exception for a corrupt/unreadable record. -/
inductive StoredPayload where
  | ok (v : PyValue)
  | corrupt (msg : String)
deriving DecidableEq

/-- One `cache/data/<key>.pkl` file: its contents and its mtime
(`os.path.getmtime`, seconds). -/
structure CacheEntry where
  payload : StoredPayload
  mtime : ℚ
deriving DecidableEq

/-- One `cache/metadata/<key>` record (src/app.py:115-124); `size_bytes`
is a filesystem artefact of pickling and is not modelled. -/
structure MetaRecord where
  timestamp : ℚ
  data_type : String
deriving DecidableEq

/-- The `SmartCache.stats` counters (src/app.py:50-55). -/
structure CacheStats where
  hits : Nat
  misses : Nat
  saves : Nat
  errors : Nat
deriving DecidableEq

def CacheStats.addHit (st : CacheStats) : CacheStats := { st with hits := st.hits + 1 }
def CacheStats.addMiss (st : CacheStats) : CacheStats := { st with misses := st.misses + 1 }
def CacheStats.addSave (st : CacheStats) : CacheStats := { st with saves := st.saves + 1 }
def CacheStats.addError (st : CacheStats) : CacheStats := { st with errors := st.errors + 1 }

/-- The cache directory plus the in-process `SmartCache` object:
data files, metadata files, counters, and `default_ttl` in seconds
(`default_ttl_minutes * 60`, src/app.py:46). -/
structure CacheState where
  entries : List (String × CacheEntry)
  meta : List (String × MetaRecord)
  stats : CacheStats
  default_ttl : ℚ
deriving DecidableEq

/-- Lookup by key in an association list (a directory of files keyed by
name). -/
def lookupKV {β : Type} : List (String × β) → String → Option β
  | [], _ => none
  | (k, v) :: rest, key => if k = key then some v else lookupKV rest key

/-- Write by key: overwrites the existing file for `key`, else creates
one. -/
def setKV {β : Type} : List (String × β) → String → β → List (String × β)
  | [], key, v => [(key, v)]
  | (k, w) :: rest, key, v =>
    if k = key then (key, v) :: rest else (k, w) :: setKV rest key v

/-- Python's `ttl_seconds or self.default_ttl` (src/app.py:80): falls back
to the default when `ttl_seconds` is `None` — or `0`, which is falsy. -/
def orTruthy (t : Option ℚ) (d : ℚ) : ℚ :=
  match t with
  | none => d
  | some x => if x = 0 then d else x

/-- Model of `SmartCache.is_cache_valid` (src/app.py:75-82): the file must exist and
`time.time() - os.path.getmtime(path) < ttl` with strict less-than. -/
def SmartCache.is_cache_valid (s : CacheState) (now : ℚ) (key : String)
    (ttl_seconds : Option ℚ) : Bool :=
  match lookupKV s.entries key with
  | none => false
  | some e => decide (now - e.mtime < orTruthy ttl_seconds s.default_ttl)

/-- Model of `ttl_seconds = (ttl_minutes * 60) if ttl_minutes else None`
(src/app.py:87): `ttl_minutes = 0` is falsy and yields `None`. -/
def ttlSecondsOfMinutes (ttl_minutes : Option ℚ) : Option ℚ :=
  match ttl_minutes with
  | none => none
  | some m => if m = 0 then none else some (m * 60)

/-- Model of `SmartCache.get` (src/app.py:84-104). Returns the payload (`None`
modelled as `none` on a miss) and the updated store. A fresh entry whose
unpickling fails takes the `except` path: error counter, `None` result.
The whole body is inside `try/except`, so `get` never raises — here it is
a total function. -/
def SmartCache.get (s : CacheState) (now : ℚ) (key : String)
    (ttl_minutes : Option ℚ) : Option PyValue × CacheState :=
  let ttl_seconds := ttlSecondsOfMinutes ttl_minutes
  if SmartCache.is_cache_valid s now key ttl_seconds then
    match lookupKV s.entries key with
    | some ⟨.ok v, _⟩ => (some v, { s with stats := s.stats.addHit })
    | some ⟨.corrupt _, _⟩ => (none, { s with stats := s.stats.addError })
    | none => (none, { s with stats := s.stats.addMiss })
  else
    (none, { s with stats := s.stats.addMiss })

/-- Model of `type(data).__name__` for the metadata record. -/
def pyTypeName : PyValue → String
  | .str _ => "str"
  | .int _ => "int"
  | .rat _ => "float"
  | .list _ => "list"
  | .dict _ => "dict"

/-- Model of `SmartCache.set` (src/app.py:106-131). `dataOk`/`metaOk` inject
filesystem failure for the payload write and the metadata write. A failed
payload write leaves the store unchanged and counts an error; a failed
metadata write happens after the payload file is already on disk, so the
entry stays but the save is counted as an error. Both failures are
swallowed by the `try/except`, so `set` never raises — a total function. -/
def SmartCache.set (s : CacheState) (now : ℚ) (dataOk metaOk : Bool)
    (key : String) (data : PyValue) : CacheState :=
  if dataOk then
    let s1 := { s with entries := setKV s.entries key ⟨.ok data, now⟩ }
    if metaOk then
      { s1 with meta := setKV s1.meta key ⟨now, pyTypeName data⟩,
                stats := s1.stats.addSave }
    else
      { s1 with stats := s1.stats.addError }
  else
    { s with stats := s.stats.addError }

/-- The scan loop of `clear_expired` (src/app.py:137-146): walks the data
files; a file failing `is_cache_valid` with the *default* TTL is removed
(along with its metadata) and counted. Returns (kept entries, removed
keys, count removed). -/
def clearLoop (now dttl : ℚ) :
    List (String × CacheEntry) → List (String × CacheEntry) × List String × Nat
  | [] => ([], [], 0)
  | (k, e) :: rest =>
    let r := clearLoop now dttl rest
    if now - e.mtime < dttl then ((k, e) :: r.1, r.2.1, r.2.2)
    else (r.1, k :: r.2.1, r.2.2 + 1)

/-- Model of `SmartCache.clear_expired` (src/app.py:133-154): removes every data
file that fails the store-default TTL check, removes its metadata, and
returns the count removed. -/
def SmartCache.clear_expired (s : CacheState) (now : ℚ) : Nat × CacheState :=
  let r := clearLoop now s.default_ttl s.entries
  (r.2.2,
   { s with entries := r.1,
            meta := s.meta.filter (fun km => !(r.2.1.contains km.1)) })

/-! ## The memoizing wrapper (`cached_operation`) -/

/-- Model of `cached_operation` (src/app.py:181-217): the body of `wrapper`.
`opResult` is the outcome `func(*args, **kwargs)` would have (the wrapped
operations are deterministic per spec, so it is a value of the call, used
only when the wrapper actually invokes `func`). The result is the
wrapper's outcome, the updated store, and whether `func` was invoked.
The key is derived from `(func.__name__, *args)` plus the kwargs. -/
def cached_operation (digest : String → String) (ttl_minutes : ℚ)
    (opName : String) (args : List PyValue) (kwargs : List (String × PyValue))
    (opResult : Fallible PyValue)
    (s : CacheState) (now : ℚ) (dataOk metaOk : Bool) :
    Fallible PyValue × CacheState × Bool :=
  let key := generate_cache_key digest (PyValue.str opName :: args) kwargs
  match SmartCache.get s now key (some ttl_minutes) with
  | (some v, s1) => (.ok v, s1, false)
  | (none, s1) =>
    match opResult with
    | .ok r => (.ok r, SmartCache.set s1 now dataOk metaOk key r, true)
    | .raised e => (.raised e, s1, true)

/-! ## The risk engine (`TashkentDustAnalyzer.calculate_dust_risk`) -/

/-- The dict returned by `calculate_dust_risk` (src/app.py:326-332). -/
structure RiskResult where
  dust_risk_index : ℚ
  risk_level : String
  temperature_factor : ℚ
  vegetation_factor : ℚ
  dust_factor : ℚ
deriving DecidableEq

/-- Model of `calculate_dust_risk` (src/app.py:300-332), as a function of the three
scalars it reads from its input dicts (`lst_day_mean`, `ndvi_mean`,
`nddi_mean`). Python float arithmetic is modelled as exact rational
arithmetic. -/
def calculate_dust_risk (temperature ndvi nddi : ℚ) : RiskResult :=
  let temp_factor := max 0 ((temperature - 25) / 20)
  let veg_factor := max 0 (1 - ndvi)
  let dust_factor := max 0 (nddi + 1/10)
  let idx := 4/10 * dust_factor + 3/10 * temp_factor + 3/10 * veg_factor
  let dust_risk_index := max 0 (min 1 idx)
  let risk_level :=
    if dust_risk_index > 6/10 then "high"
    else if dust_risk_index > 3/10 then "moderate"
    else "low"
  ⟨dust_risk_index, risk_level, temp_factor, veg_factor, dust_factor⟩

/-! ## The orchestrator (`TashkentDustAnalyzer.get_current_conditions`) -/

/-- The dict returned by `get_modis_data` (src/app.py:255-259). -/
structure ModisData where
  lst_day_mean : ℚ
  lst_day_std : ℚ
  modis_count : Nat
deriving DecidableEq

/-- The dict returned by `get_landsat_data` (src/app.py:292-298). -/
structure LandsatData where
  ndvi_mean : ℚ
  ndvi_std : ℚ
  nddi_mean : ℚ
  nddi_std : ℚ
  landsat_count : Nat
deriving DecidableEq

/-- The three labels added by `_assess_conditions` (src/app.py:377-387). -/
structure StatusLabels where
  temperature_status : String
  vegetation_status : String
  dust_signature_status : String
deriving DecidableEq

/-- Model of `_assess_conditions` (src/app.py:377-387), reading `lst_day_mean`,
`ndvi_mean` and `nddi_mean` from the assembled results. -/
def assess_conditions (lst ndvi nddi : ℚ) : StatusLabels :=
  { temperature_status :=
      if lst > 35 then "High" else if lst > 25 then "Moderate" else "Low"
    vegetation_status :=
      if ndvi < 2/10 then "Low vegetation"
      else if ndvi < 4/10 then "Moderate vegetation"
      else "Good vegetation cover"
    dust_signature_status :=
      if nddi > 15/100 then "Elevated dust signature detected"
      else "Normal dust levels" }

/-- The success results dict of `get_current_conditions`
(src/app.py:353-367). Wall-clock artefacts (`timestamp`,
`execution_time_seconds`) are not modelled. -/
structure Conditions where
  analysis_period_days : Nat
  modis : ModisData
  landsat : LandsatData
  risk : RiskResult
  labels : StatusLabels
  location : String
  cache_stats : CacheStats
deriving DecidableEq

/-- What `get_current_conditions` hands back: either the assembled results
dict, or the `{'error': ..., 'cache_stats': ...}` dict from the `except`
arm (src/app.py:375). -/
inductive Envelope where
  | success (c : Conditions)
  | failure (error : String) (cache_stats : CacheStats)
deriving DecidableEq

/-- Model of `get_current_conditions` (src/app.py:334-375). The three steps of the
chain are the cached MODIS fetch, the cached Landsat fetch and the cached
risk computation; each either returns its dict or raises, which is what
the `Fallible` inputs record (`riskR` may depend on the fetched data).
The whole chain runs inside `try/except`; the `except` arm returns the
error envelope with a fresh `cache.get_stats()` snapshot. -/
def get_current_conditions (days_back : Nat)
    (modisR : Fallible ModisData) (landsatR : Fallible LandsatData)
    (riskR : ModisData → LandsatData → Fallible RiskResult)
    (stats : CacheStats) : Envelope :=
  match modisR with
  | .raised e => .failure e stats
  | .ok m =>
    match landsatR with
    | .raised e => .failure e stats
    | .ok l =>
      match riskR m l with
      | .raised e => .failure e stats
      | .ok risk =>
        .success
          { analysis_period_days := days_back
            modis := m
            landsat := l
            risk := risk
            labels := assess_conditions m.lst_day_mean l.ndvi_mean l.nddi_mean
            location := "Tashkent_Uzbekistan"
            cache_stats := stats }

/-! ## The forecast engine (`TashkentDustAnalyzer.generate_forecast`) -/

/-- Calendar facts about `datetime.now() + timedelta(days=i)` that the
forecast loop reads: `%Y-%m-%d`, `%A`, `%a`, `tm_yday`, `month`. -/
structure DayInfo where
  iso : String
  weekdayName : String
  weekdayShort : String
  dayOfYear : Nat
  month : Nat
deriving DecidableEq

/-- The ambient inputs of one `generate_forecast` run: the calendar
(`dayInfo i` for forecast day `i`), the stream of `np.random.random()`
draws in evaluation order (day `i` consumes draws `2*i` and `2*i+1`), and
`sin2pi x` modelling `np.sin(x * 2 * np.pi)`. -/
structure ForecastEnv where
  dayInfo : Nat → DayInfo
  rand : Nat → ℚ
  sin2pi : ℚ → ℚ

/-- One forecast dict (src/app.py:473-483). -/
structure ForecastDay where
  date : String
  day_name : String
  day_short : String
  risk_score : ℚ
  risk_level : String
  temperature : ℚ
  confidence : ℚ
  tendency : String
  day_index : Nat
deriving DecidableEq

/-- Round half-to-even at integer precision. -/
def roundHalfEven (x : ℚ) : ℤ :=
  let f := ⌊x⌋
  let r := x - (f : ℚ)
  if r < 1/2 then f
  else if 1/2 < r then f + 1
  else if f % 2 = 0 then f else f + 1

/-- Python's `round(x, 1)` (banker's rounding at one decimal). -/
def pyRound1 (x : ℚ) : ℚ := (roundHalfEven (x * 10) : ℚ) / 10

/-- The body of one iteration of the forecast loop (src/app.py:403-483)
for day index `i`; `prev_risk` is `forecast[i-1]['risk_score']` (read only
when `i > 0`, so the `0` passed for day 0 is never used). -/
def mkForecastDay (E : ForecastEnv) (base_risk base_temp : ℚ)
    (i : Nat) (prev_risk : ℚ) : ForecastDay :=
  let d := E.dayInfo i
  let seasonal_factor := E.sin2pi ((d.dayOfYear : ℚ) / 365) * (8/100)
  let weekly_pattern := E.sin2pi ((i : ℚ) / 7) * (5/100)
  let random_variation := (E.rand (2*i) - 1/2) * (1/10 + (i : ℚ) * (2/100))
  let trend_factor :=
    if d.month ∈ [6, 7, 8, 9] then (i : ℚ) * (1/100) else (i : ℚ) * (5/1000)
  let risk0 := base_risk + seasonal_factor + weekly_pattern
    + random_variation + trend_factor
  let risk_score := max (5/100) (min (95/100) risk0)
  let risk_level :=
    if risk_score > 65/100 then "high"
    else if risk_score > 35/100 then "moderate"
    else "low"
  let temp_seasonal := E.sin2pi ((d.dayOfYear : ℚ) / 365) * 8
  let temp_daily := (E.rand (2*i + 1) - 1/2) * 5
  let temp_trend :=
    if d.month ∈ [9, 10, 11] then -(2/10) * (i : ℚ) else (1/10) * (i : ℚ)
  let temperature :=
    max 15 (min 45 (base_temp + temp_seasonal + temp_daily + temp_trend))
  let confidence0 :=
    if i = 0 then 95/100
    else if i ≤ 2 then 85/100 - (i : ℚ) * (5/100)
    else if i ≤ 4 then 75/100 - ((i : ℚ) - 2) * (8/100)
    else 59/100 - ((i : ℚ) - 4) * (6/100)
  let confidence := max (35/100) confidence0
  let day_name :=
    if i = 0 then "Today" else if i = 1 then "Tomorrow" else d.weekdayName
  let tendency :=
    if i = 0 then "Current"
    else if risk_score > prev_risk + 1/10 then "Increasing"
    else if risk_score < prev_risk - 1/10 then "Decreasing"
    else "Stable"
  ⟨d.iso, day_name, d.weekdayShort, risk_score, risk_level,
    pyRound1 temperature, confidence, tendency, i⟩

/-- The `for i in range(days)` loop: builds the forecast list from day
index `i`, `n` days remaining, threading the previous day's risk score. -/
def forecastFrom (E : ForecastEnv) (base_risk base_temp : ℚ) :
    Nat → Nat → ℚ → List ForecastDay
  | _, 0, _ => []
  | i, n + 1, prev =>
    let d := mkForecastDay E base_risk base_temp i prev
    d :: forecastFrom E base_risk base_temp (i + 1) n d.risk_score

/-- What `generate_forecast` returns: the list of forecast dicts, or the
single-element error list
`[{'error': 'Could not generate forecast', 'reason': ...}]`
(src/app.py:395). -/
inductive ForecastOut where
  | days (l : List ForecastDay)
  | failed (error reason : String)
deriving DecidableEq

/-- Model of `generate_forecast` (src/app.py:389-490), given the outcome `current`
of `self.get_current_conditions()`. When `'error' in current`, the
single-element error list is returned; otherwise the loop runs from
`base_risk = current['dust_risk_index']` and
`base_temp = current['lst_day_mean']`. The enclosing `try/except` would
also map an in-body exception to `[{'error': str(e)}]`, but the modelled
body is total, so only these two outcomes occur. -/
def generate_forecast (E : ForecastEnv) (current : Envelope) (days : Nat) :
    ForecastOut :=
  match current with
  | .failure e _ => .failed "Could not generate forecast" e
  | .success c =>
    .days (forecastFrom E c.risk.dust_risk_index c.modis.lst_day_mean 0 days 0)

/-- The forecast dict as the pickled `PyValue` the cache stores. -/
def encodeForecastDay (d : ForecastDay) : PyValue :=
  .dict [("date", .str d.date), ("day_name", .str d.day_name),
         ("day_short", .str d.day_short), ("risk_score", .rat d.risk_score),
         ("risk_level", .str d.risk_level), ("temperature", .rat d.temperature),
         ("confidence", .rat d.confidence), ("tendency", .str d.tendency),
         ("day_index", .int d.day_index)]

/-- The return value of `generate_forecast` as the `PyValue` that flows
through the memoizing wrapper and into the cache. -/
def encodeForecastOut : ForecastOut → PyValue
  | .days l => .list (l.map encodeForecastDay)
  | .failed e r => .list [.dict [("error", .str e), ("reason", .str r)]]

/-- The public forecast operation: `generate_forecast` as wrapped by
`@cached_operation(ttl_minutes=120)` (src/app.py:389). `args`/`kwargs`
are the call's Python arguments (`self`, and `days` however it was
passed); a repeat call with the same day count passes the same ones. The
inner body never raises (its own `try/except` turns failures into the
error list), so the wrapped operation's outcome is always `.ok` of the
encoded return value. -/
def generate_forecast_cached (digest : String → String) (E : ForecastEnv)
    (current : Envelope) (days : Nat)
    (args : List PyValue) (kwargs : List (String × PyValue))
    (s : CacheState) (now : ℚ) (dataOk metaOk : Bool) :
    Fallible PyValue × CacheState × Bool :=
  cached_operation digest 120 "generate_forecast" args kwargs
    (.ok (encodeForecastOut (generate_forecast E current days)))
    s now dataOk metaOk

/-! ## Helper lemmas -/

theorem lookupKV_setKV_self {β : Type} (l : List (String × β)) (k : String) (v : β) :
    lookupKV (setKV l k v) k = some v := by
  induction l with
  | nil => simp [setKV, lookupKV]
  | cons kv rest ih =>
    obtain ⟨k', w⟩ := kv
    by_cases h : k' = k
    · simp [setKV, h, lookupKV]
    · simp [setKV, h, lookupKV, ih]

theorem SmartCache.get_entries (s : CacheState) (now : ℚ) (key : String)
    (ttl_minutes : Option ℚ) :
    (SmartCache.get s now key ttl_minutes).2.entries = s.entries
    ∧ (SmartCache.get s now key ttl_minutes).2.meta = s.meta
    ∧ (SmartCache.get s now key ttl_minutes).2.default_ttl = s.default_ttl := by
  unfold SmartCache.get
  dsimp only
  split
  · split <;> simp
  · simp

theorem clearLoop_fst (now dttl : ℚ) (l : List (String × CacheEntry)) :
    (clearLoop now dttl l).1
      = l.filter (fun ke => decide (now - ke.2.mtime < dttl)) := by
  induction l with
  | nil => simp [clearLoop]
  | cons ke rest ih =>
    by_cases h : now - ke.2.mtime < dttl
    · simp [clearLoop, h, List.filter, ih]
    · simp [clearLoop, h, List.filter, ih]

theorem clearLoop_count (now dttl : ℚ) (l : List (String × CacheEntry)) :
    (clearLoop now dttl l).2.2
      = (l.filter (fun ke => !decide (now - ke.2.mtime < dttl))).length := by
  induction l with
  | nil => simp [clearLoop]
  | cons ke rest ih =>
    by_cases h : now - ke.2.mtime < dttl
    · simp [clearLoop, h, List.filter, ih]
    · simp [clearLoop, h, List.filter, ih]

/-! ## Claims -/

/-- The risk-level if-chain of src/app.py:319-324, characterised. -/
theorem riskLevelIff (idx : ℚ) :
    ((if idx > 6/10 then "high" else if idx > 3/10 then "moderate" else "low")
        = "high" ↔ 6/10 < idx)
    ∧ ((if idx > 6/10 then "high" else if idx > 3/10 then "moderate" else "low")
        = "moderate" ↔ (3/10 < idx ∧ idx ≤ 6/10))
    ∧ ((if idx > 6/10 then "high" else if idx > 3/10 then "moderate" else "low")
        = "low" ↔ idx ≤ 3/10) := by
  by_cases h1 : idx > 6/10
  · rw [if_pos h1]
    refine ⟨by simp [h1], ?_, ?_⟩
    · constructor
      · intro h; exact absurd h (by decide)
      · rintro ⟨-, h⟩; exact absurd h1 (not_lt.mpr h)
    · constructor
      · intro h; exact absurd h (by decide)
      · intro h; exact absurd h1 (not_lt.mpr (h.trans (by norm_num)))
  · rw [if_neg h1]
    by_cases h2 : idx > 3/10
    · rw [if_pos h2]
      refine ⟨?_, by simp [h2, not_lt.mp h1], ?_⟩
      · constructor
        · intro h; exact absurd h (by decide)
        · intro h; exact absurd h h1
      · constructor
        · intro h; exact absurd h (by decide)
        · intro h; exact absurd h2 (not_lt.mpr h)
    · rw [if_neg h2]
      refine ⟨?_, ?_, by simp [not_lt.mp h2]⟩
      · constructor
        · intro h; exact absurd h (by decide)
        · intro h; exact absurd h h1
      · constructor
        · intro h; exact absurd h (by decide)
        · rintro ⟨h, -⟩; exact absurd h h2

/-- C5: for all real inputs `temperature`, `ndvi`, `nddi`,
`calculate_dust_risk` returns `temp_factor = max 0 ((temperature−25)/20)`,
`veg_factor = max 0 (1−ndvi)`, `dust_factor = max 0 (nddi+0.1)`,
`index = clamp(0.4·dust_factor + 0.3·temp_factor + 0.3·veg_factor, 0, 1)`,
and `level = "high"` iff `index > 0.6`, `"moderate"` iff
`0.3 < index ≤ 0.6`, else `"low"`; in particular `temperature = 30`,
`ndvi = 0.1`, `nddi = 0.2` yields `temp_factor = 0.25`, `veg_factor = 0.9`,
`dust_factor = 0.3`, `index = 0.465`, `level = "moderate"`. -/
theorem calculate_dust_risk_spec :
    (∀ temperature ndvi nddi : ℚ,
      (calculate_dust_risk temperature ndvi nddi).temperature_factor
          = max 0 ((temperature - 25) / 20)
      ∧ (calculate_dust_risk temperature ndvi nddi).vegetation_factor
          = max 0 (1 - ndvi)
      ∧ (calculate_dust_risk temperature ndvi nddi).dust_factor
          = max 0 (nddi + 1/10)
      ∧ (calculate_dust_risk temperature ndvi nddi).dust_risk_index
          = max 0 (min 1
              (4/10 * (calculate_dust_risk temperature ndvi nddi).dust_factor
                + 3/10 * (calculate_dust_risk temperature ndvi nddi).temperature_factor
                + 3/10 * (calculate_dust_risk temperature ndvi nddi).vegetation_factor))
      ∧ ((calculate_dust_risk temperature ndvi nddi).risk_level = "high"
          ↔ 6/10 < (calculate_dust_risk temperature ndvi nddi).dust_risk_index)
      ∧ ((calculate_dust_risk temperature ndvi nddi).risk_level = "moderate"
          ↔ (3/10 < (calculate_dust_risk temperature ndvi nddi).dust_risk_index
              ∧ (calculate_dust_risk temperature ndvi nddi).dust_risk_index ≤ 6/10))
      ∧ ((calculate_dust_risk temperature ndvi nddi).risk_level = "low"
          ↔ (calculate_dust_risk temperature ndvi nddi).dust_risk_index ≤ 3/10))
    ∧ calculate_dust_risk 30 (1/10) (2/10)
        = ⟨465/1000, "moderate", 1/4, 9/10, 3/10⟩ := by
  constructor
  · intro temperature ndvi nddi
    exact ⟨rfl, rfl, rfl, rfl, (riskLevelIff _).1, (riskLevelIff _).2.1,
      (riskLevelIff _).2.2⟩
  · rw [calculate_dust_risk]
    norm_num

/-- C3 (amended): a stored entry is valid exactly when
`(now − stored_at) < ttl` with strict less-than, where `ttl` is the
reader-supplied per-call TTL when that TTL is nonzero, falling back to
the store default when the reader supplies none — or zero, which the
`ttl_seconds or self.default_ttl` truthiness test of src/app.py:80 (and
the `if ttl_minutes` test of line 87) treats the same as an absent TTL;
an entry written at `t0` is a hit when read at `t0 + ttl − ε` and a miss
at `t0 + ttl + ε`; and one entry can be expired for a reader using `m1`
minutes while valid for another using `m2` minutes. -/
theorem ttl_validity_spec (s : CacheState) (key : String) (v : PyValue)
    (t0 : ℚ) (hlook : lookupKV s.entries key = some ⟨.ok v, t0⟩) :
    (∀ now ttl_s : ℚ, ttl_s ≠ 0 →
      (SmartCache.is_cache_valid s now key (some ttl_s) = true
        ↔ now - t0 < ttl_s))
    ∧ (∀ now : ℚ,
      (SmartCache.is_cache_valid s now key none = true
        ↔ now - t0 < s.default_ttl))
    ∧ (∀ now : ℚ,
      SmartCache.get s now key (some 0) = SmartCache.get s now key none)
    ∧ (∀ m ε : ℚ, 0 < m → 0 < ε →
      SmartCache.get s (t0 + m * 60 - ε) key (some m)
        = (some v, { s with stats := s.stats.addHit }))
    ∧ (∀ m ε : ℚ, 0 < m → 0 ≤ ε →
      SmartCache.get s (t0 + m * 60 + ε) key (some m)
        = (none, { s with stats := s.stats.addMiss }))
    ∧ (∀ now m1 m2 : ℚ, 0 < m1 → 0 < m2 →
      m1 * 60 ≤ now - t0 → now - t0 < m2 * 60 →
      SmartCache.get s now key (some m1)
          = (none, { s with stats := s.stats.addMiss })
      ∧ SmartCache.get s now key (some m2)
          = (some v, { s with stats := s.stats.addHit })) := by
  have hvalid : ∀ now ttl_s : ℚ, ttl_s ≠ 0 →
      (SmartCache.is_cache_valid s now key (some ttl_s) = true
        ↔ now - t0 < ttl_s) := by
    intro now ttl_s hne
    unfold SmartCache.is_cache_valid
    rw [hlook]
    simp [orTruthy, hne]
  have hget_hit : ∀ now m : ℚ, 0 < m → now - t0 < m * 60 →
      SmartCache.get s now key (some m)
        = (some v, { s with stats := s.stats.addHit }) := by
    intro now m hm hfresh
    unfold SmartCache.get
    dsimp only
    have hm0 : m ≠ 0 := ne_of_gt hm
    have : SmartCache.is_cache_valid s now key
        (ttlSecondsOfMinutes (some m)) = true := by
      unfold SmartCache.is_cache_valid ttlSecondsOfMinutes
      rw [hlook]
      simp [orTruthy, hm0, hfresh, (by positivity : (0:ℚ) < m * 60).ne']
    rw [if_pos this, hlook]
  have hget_miss : ∀ now m : ℚ, 0 < m → ¬(now - t0 < m * 60) →
      SmartCache.get s now key (some m)
        = (none, { s with stats := s.stats.addMiss }) := by
    intro now m hm hstale
    unfold SmartCache.get
    dsimp only
    have hm0 : m ≠ 0 := ne_of_gt hm
    have : SmartCache.is_cache_valid s now key
        (ttlSecondsOfMinutes (some m)) = false := by
      unfold SmartCache.is_cache_valid ttlSecondsOfMinutes
      rw [hlook]
      simp [orTruthy, hm0, hstale, (by positivity : (0:ℚ) < m * 60).ne']
    rw [this]
    simp
  refine ⟨hvalid, ?_, ?_, ?_, ?_, ?_⟩
  · intro now
    unfold SmartCache.is_cache_valid
    rw [hlook]
    simp [orTruthy]
  · intro now
    have htz : ttlSecondsOfMinutes (some 0) = ttlSecondsOfMinutes none := by
      norm_num [ttlSecondsOfMinutes]
    unfold SmartCache.get
    rw [htz]
  · intro m ε hm hε
    exact hget_hit _ m hm (by linarith)
  · intro m ε hm hε
    exact hget_miss _ m hm (by push_neg; linarith)
  · intro now m1 m2 hm1 hm2 hstale hfresh
    exact ⟨hget_miss now m1 hm1 (by push_neg; linarith),
      hget_hit now m2 hm2 hfresh⟩

/-- Concrete store for the C3 witness: one healthy entry under key `"k"`
written at time 0, store default TTL 1800 s (30 min). -/
def ttlWitnessStore : CacheState :=
  { entries := [("k", ⟨.ok (.int 7), 0⟩)]
    meta := []
    stats := ⟨0, 0, 0, 0⟩
    default_ttl := 1800 }

/-- Witness for C3 at a concrete store: a read 1 s before the 30-minute
boundary hits; a read 1 s after it misses; at age 1800 s the entry is
expired for a 30-minute reader but valid for a 60-minute reader. -/
theorem ttl_validity_spec_witness :
    SmartCache.get ttlWitnessStore (0 + 30 * 60 - 1) "k" (some 30)
        = (some (.int 7),
           { ttlWitnessStore with stats := ttlWitnessStore.stats.addHit })
    ∧ SmartCache.get ttlWitnessStore (0 + 30 * 60 + 1) "k" (some 30)
        = (none,
           { ttlWitnessStore with stats := ttlWitnessStore.stats.addMiss })
    ∧ SmartCache.get ttlWitnessStore 1800 "k" (some 30)
        = (none,
           { ttlWitnessStore with stats := ttlWitnessStore.stats.addMiss })
    ∧ SmartCache.get ttlWitnessStore 1800 "k" (some 60)
        = (some (.int 7),
           { ttlWitnessStore with stats := ttlWitnessStore.stats.addHit }) := by
  have h := ttl_validity_spec ttlWitnessStore "k" (.int 7) 0 (by decide)
  have h5 := h.2.2.2.2.2 1800 30 60 (by norm_num) (by norm_num)
    (by norm_num) (by norm_num)
  exact ⟨h.2.2.2.1 30 1 (by norm_num) (by norm_num),
    h.2.2.2.2.1 30 1 (by norm_num) (by norm_num),
    by simpa using h5.1, by simpa using h5.2⟩

/-- Counterexample to C3 as stated: for the entry written at time 0, a
reader at time 60 supplying a per-call TTL of 0 minutes is, per the claim,
reading an expired entry (`now − stored_at < 0·60` is false), yet the
code's truthiness fallback substitutes the 30-minute store default and the
read is a cache hit. -/
theorem ttl_zero_fallback_counterexample :
    SmartCache.get ttlWitnessStore 60 "k" (some 0)
      = (some (.int 7),
         { ttlWitnessStore with stats := ttlWitnessStore.stats.addHit })
    ∧ ¬((60 : ℚ) - 0 < 0 * 60) := by
  constructor
  · norm_num [SmartCache.get, SmartCache.is_cache_valid, ttlSecondsOfMinutes,
      orTruthy, ttlWitnessStore, lookupKV]
  · norm_num

/-- Concrete store for the C4 sweep scenario: one healthy entry written at
time 0 (under a 120-minute per-call read TTL, which the store does not
record), store default TTL 1800 s (30 min). -/
def sweepStore : CacheState :=
  { entries := [("k", ⟨.ok (.int 7), 0⟩)]
    meta := [("k", ⟨0, "int"⟩)]
    stats := ⟨0, 0, 0, 0⟩
    default_ttl := 1800 }

/-- C4: `clear_expired` removes exactly the stored entries whose age fails
the store-default TTL check — the per-read TTL override a writer or reader
used is not recorded in any entry, so it cannot influence the sweep — and
returns the count removed. Concretely: an entry 31 minutes old is still a
hit for a reader passing a 120-minute TTL, yet a sweep under the 30-minute
store default removes it (and its metadata) and reports 1 removed. -/
theorem clear_expired_spec :
    (∀ (s : CacheState) (now : ℚ),
      (SmartCache.clear_expired s now).1
        = (s.entries.filter
            (fun ke => !decide (now - ke.2.mtime < s.default_ttl))).length
      ∧ (SmartCache.clear_expired s now).2.entries
          = s.entries.filter (fun ke => decide (now - ke.2.mtime < s.default_ttl))
      ∧ (∀ (k : String) (e : CacheEntry),
          (k, e) ∈ (SmartCache.clear_expired s now).2.entries
            ↔ ((k, e) ∈ s.entries ∧ now - e.mtime < s.default_ttl)))
    ∧ SmartCache.get sweepStore (31 * 60) "k" (some 120)
        = (some (.int 7), { sweepStore with stats := sweepStore.stats.addHit })
    ∧ SmartCache.clear_expired sweepStore (31 * 60)
        = (1, { sweepStore with entries := [], meta := [] }) := by
  refine ⟨fun s now => ⟨?_, ?_, ?_⟩, ?_, ?_⟩
  case refine_4 =>
    norm_num [SmartCache.get, SmartCache.is_cache_valid, ttlSecondsOfMinutes,
      orTruthy, sweepStore, lookupKV]
  case refine_5 =>
    norm_num [SmartCache.clear_expired, clearLoop, sweepStore]
  · exact clearLoop_count now s.default_ttl s.entries
  · exact clearLoop_fst now s.default_ttl s.entries
  · intro k e
    show (k, e) ∈ (clearLoop now s.default_ttl s.entries).1 ↔ _
    rw [clearLoop_fst]
    simp [List.mem_filter]

/-- C6: `set(k, v)` immediately followed by `get(k)` within the applicable
TTL returns `v` unchanged (for any payload — scalar, nested mapping or
sequence), the store keeping the written entry and counting one save and
one hit. -/
theorem set_get_roundtrip (s : CacheState) (t now : ℚ) (k : String)
    (v : PyValue) (ttl_minutes : Option ℚ)
    (hfresh : now - t
        < orTruthy (ttlSecondsOfMinutes ttl_minutes) s.default_ttl) :
    SmartCache.get (SmartCache.set s t true true k v) now k ttl_minutes
      = (some v,
         { SmartCache.set s t true true k v with
           stats := (SmartCache.set s t true true k v).stats.addHit }) := by
  have hset : SmartCache.set s t true true k v
      = { s with entries := setKV s.entries k ⟨.ok v, t⟩,
                 meta := setKV s.meta k ⟨t, pyTypeName v⟩,
                 stats := s.stats.addSave } := rfl
  have hlook : lookupKV (SmartCache.set s t true true k v).entries k
      = some ⟨.ok v, t⟩ := by
    rw [hset]
    exact lookupKV_setKV_self _ _ _
  unfold SmartCache.get
  dsimp only
  have hvalid : SmartCache.is_cache_valid (SmartCache.set s t true true k v)
      now k (ttlSecondsOfMinutes ttl_minutes) = true := by
    unfold SmartCache.is_cache_valid
    rw [hlook]
    have hd : (SmartCache.set s t true true k v).default_ttl
        = s.default_ttl := rfl
    rw [hd]
    simpa using hfresh
  rw [if_pos hvalid, hlook]

/-- Fresh empty store for the C6 witness. -/
def emptyStore : CacheState :=
  { entries := [], meta := [], stats := ⟨0, 0, 0, 0⟩, default_ttl := 1800 }

/-- Witness for C6 on a fresh store with the reader using the store
default TTL: a scalar, a nested-mapping and a sequence payload all
round-trip. -/
theorem set_get_roundtrip_witness :
    (SmartCache.get (SmartCache.set emptyStore 0 true true "k" (.rat (7/2)))
        5 "k" none).1 = some (.rat (7/2))
    ∧ (SmartCache.get (SmartCache.set emptyStore 0 true true "k"
        (.dict [("a", .dict [("b", .int 1)]), ("c", .str "x")])) 5 "k" none).1
        = some (.dict [("a", .dict [("b", .int 1)]), ("c", .str "x")])
    ∧ (SmartCache.get (SmartCache.set emptyStore 0 true true "k"
        (.list [.int 1, .str "y", .list [.rat (1/3)]])) 5 "k" none).1
        = some (.list [.int 1, .str "y", .list [.rat (1/3)]]) := by
  have hfresh : (5 : ℚ) - 0
      < orTruthy (ttlSecondsOfMinutes none) emptyStore.default_ttl := by
    norm_num [orTruthy, ttlSecondsOfMinutes, emptyStore]
  refine ⟨?_, ?_, ?_⟩ <;>
    rw [set_get_roundtrip emptyStore 0 5 "k" _ none hfresh]

/-- C7: `CacheStore.get` and `CacheStore.set` never raise (they are total
functions here because every failure path in src/app.py:86-104 and
108-131 is caught): a corrupt/unreadable record read within its TTL is
treated as a miss — `None` comes back — and bumps only the error counter;
a failed payload write leaves the store exactly as it was apart from the
error counter; a failed metadata write (after the payload file landed)
also bumps the error counter and counts no save. -/
theorem cache_fail_open (s : CacheState) (now : ℚ) (key : String)
    (msg : String) (t0 : ℚ) (ttl_minutes : Option ℚ) (metaOk : Bool)
    (v : PyValue)
    (hlook : lookupKV s.entries key = some ⟨.corrupt msg, t0⟩)
    (hfresh : now - t0
        < orTruthy (ttlSecondsOfMinutes ttl_minutes) s.default_ttl) :
    SmartCache.get s now key ttl_minutes
        = (none, { s with stats := s.stats.addError })
    ∧ SmartCache.set s now false metaOk key v
        = { s with stats := s.stats.addError }
    ∧ (SmartCache.set s now true false key v).stats = s.stats.addError
    ∧ (SmartCache.set s now true false key v).entries
        = setKV s.entries key ⟨.ok v, now⟩ := by
  refine ⟨?_, rfl, rfl, rfl⟩
  unfold SmartCache.get
  dsimp only
  have hvalid : SmartCache.is_cache_valid s now key
      (ttlSecondsOfMinutes ttl_minutes) = true := by
    unfold SmartCache.is_cache_valid
    rw [hlook]
    simpa using hfresh
  rw [if_pos hvalid, hlook]

/-- Store with one fresh-but-corrupt record for the C7 witness. -/
def corruptStore : CacheState :=
  { entries := [("k", ⟨.corrupt "unpickling error", 0⟩)]
    meta := []
    stats := ⟨2, 3, 4, 5⟩
    default_ttl := 1800 }

/-- Witness for C7: reading the fresh corrupt record returns `None` and
bumps errors from 5 to 6; a failed write leaves the store untouched apart
from the same bump. -/
theorem cache_fail_open_witness :
    SmartCache.get corruptStore 60 "k" (some 30)
        = (none, { corruptStore with stats := ⟨2, 3, 4, 6⟩ })
    ∧ SmartCache.set corruptStore 60 false true "k" (.int 1)
        = { corruptStore with stats := ⟨2, 3, 4, 6⟩ } := by
  have h := cache_fail_open corruptStore 60 "k" "unpickling error" 0
    (some 30) true (.int 1) (by decide)
    (by norm_num [orTruthy, ttlSecondsOfMinutes, corruptStore])
  exact ⟨h.1, h.2.1⟩

/-- C1: for every wrapped operation and argument list, with
`key = generate_cache_key(func.__name__, *args, **kwargs)`: a cache hit
returns the cached payload without invoking the operation; a miss invokes
it and, on success, persists the result via `CacheStore.set` under that
key (so with the writes succeeding the entry is then present) and returns
it; if the operation raises, the exception propagates and nothing is
written — the store keeps exactly the entries and metadata it had. -/
theorem cached_operation_spec (digest : String → String) (ttl : ℚ)
    (opName : String) (args : List PyValue)
    (kwargs : List (String × PyValue)) (opResult : Fallible PyValue)
    (s : CacheState) (now : ℚ) (dataOk metaOk : Bool) :
    (∀ v s1, SmartCache.get s now
          (generate_cache_key digest (PyValue.str opName :: args) kwargs)
          (some ttl) = (some v, s1) →
        cached_operation digest ttl opName args kwargs opResult s now
            dataOk metaOk = (.ok v, s1, false))
    ∧ (∀ s1 r, SmartCache.get s now
          (generate_cache_key digest (PyValue.str opName :: args) kwargs)
          (some ttl) = (none, s1) → opResult = .ok r →
        cached_operation digest ttl opName args kwargs opResult s now
            dataOk metaOk
          = (.ok r, SmartCache.set s1 now dataOk metaOk
              (generate_cache_key digest (PyValue.str opName :: args) kwargs)
              r, true)
        ∧ (dataOk = true →
            lookupKV (SmartCache.set s1 now dataOk metaOk
                (generate_cache_key digest (PyValue.str opName :: args)
                  kwargs) r).entries
              (generate_cache_key digest (PyValue.str opName :: args) kwargs)
              = some ⟨.ok r, now⟩))
    ∧ (∀ s1 e, SmartCache.get s now
          (generate_cache_key digest (PyValue.str opName :: args) kwargs)
          (some ttl) = (none, s1) → opResult = .raised e →
        cached_operation digest ttl opName args kwargs opResult s now
            dataOk metaOk = (.raised e, s1, true)
        ∧ s1.entries = s.entries ∧ s1.meta = s.meta) := by
  refine ⟨?_, ?_, ?_⟩
  · intro v s1 hget
    unfold cached_operation
    dsimp only
    rw [hget]
  · intro s1 r hget hop
    constructor
    · unfold cached_operation
      dsimp only
      rw [hget, hop]
    · intro hdata
      subst hdata
      cases metaOk <;>
        · show lookupKV (setKV s1.entries _ _) _ = _
          exact lookupKV_setKV_self _ _ _
  · intro s1 e hget hop
    have hpres := SmartCache.get_entries s now
      (generate_cache_key digest (PyValue.str opName :: args) kwargs)
      (some ttl)
    rw [hget] at hpres
    refine ⟨?_, hpres.1, hpres.2.1⟩
    unfold cached_operation
    dsimp only
    rw [hget, hop]

/-- Fixture for the C1 witness: identity digest, a store holding the
derived key for `op("x")` with payload `"cached"`, written at time 0. -/
def wrapperStore : CacheState :=
  { entries :=
      [(generate_cache_key id [.str "op", .str "x"] [], ⟨.ok (.str "cached"), 0⟩)]
    meta := []
    stats := ⟨0, 0, 0, 0⟩
    default_ttl := 1800 }

/-- Witness for C1 at concrete inputs: a hit returns the cached payload
without invoking the operation; after clearing the store, a successful
computation is returned and persisted; a raising computation propagates
and writes nothing. -/
theorem cached_operation_spec_witness :
    cached_operation id 30 "op" [.str "x"] [] (.ok (.str "fresh"))
        wrapperStore 60 true true
      = (.ok (.str "cached"),
         { wrapperStore with stats := wrapperStore.stats.addHit }, false)
    ∧ (cached_operation id 30 "op" [.str "x"] [] (.raised "boom")
        emptyStore 60 true true).1 = .raised "boom"
    ∧ (cached_operation id 30 "op" [.str "x"] [] (.raised "boom")
        emptyStore 60 true true).2.1.entries = [] := by
  have hget : SmartCache.get wrapperStore 60
      (generate_cache_key id [.str "op", .str "x"] []) (some 30)
      = (some (.str "cached"),
         { wrapperStore with stats := wrapperStore.stats.addHit }) := by
    unfold SmartCache.get SmartCache.is_cache_valid
    dsimp only
    norm_num [wrapperStore, lookupKV, ttlSecondsOfMinutes, orTruthy]
  have hmiss : SmartCache.get emptyStore 60
      (generate_cache_key id [.str "op", .str "x"] []) (some 30)
      = (none, { emptyStore with stats := emptyStore.stats.addMiss }) := by
    unfold SmartCache.get SmartCache.is_cache_valid
    dsimp only
    norm_num [emptyStore, lookupKV, ttlSecondsOfMinutes, orTruthy]
  have h1 := (cached_operation_spec id 30 "op" [.str "x"] []
    (.ok (.str "fresh")) wrapperStore 60 true true).1
    (.str "cached") _ hget
  have h3 := (cached_operation_spec id 30 "op" [.str "x"] []
    (.raised "boom") emptyStore 60 true true).2.2 _ "boom" hmiss rfl
  refine ⟨h1, by rw [h3.1], by rw [h3.1]; rfl⟩

/-- C8: no exception escapes `get_current_conditions` — it is total on
every outcome of the fetch→fetch→risk chain, returning either the
assembled success envelope or a structured error envelope that still
carries the cache-statistics snapshot. Each failure point of the chain is
mapped to the error envelope with the raised message. -/
theorem orchestrator_envelope (days_back : Nat)
    (modisR : Fallible ModisData) (landsatR : Fallible LandsatData)
    (riskR : ModisData → LandsatData → Fallible RiskResult)
    (stats : CacheStats) :
    ((∃ c, get_current_conditions days_back modisR landsatR riskR stats
          = .success c ∧ c.cache_stats = stats)
      ∨ (∃ e, get_current_conditions days_back modisR landsatR riskR stats
          = .failure e stats))
    ∧ (∀ e, modisR = .raised e →
        get_current_conditions days_back modisR landsatR riskR stats
          = .failure e stats)
    ∧ (∀ m e, modisR = .ok m → landsatR = .raised e →
        get_current_conditions days_back modisR landsatR riskR stats
          = .failure e stats)
    ∧ (∀ m l e, modisR = .ok m → landsatR = .ok l → riskR m l = .raised e →
        get_current_conditions days_back modisR landsatR riskR stats
          = .failure e stats)
    ∧ (∀ m l r, modisR = .ok m → landsatR = .ok l → riskR m l = .ok r →
        get_current_conditions days_back modisR landsatR riskR stats
          = .success
              { analysis_period_days := days_back
                modis := m
                landsat := l
                risk := r
                labels := assess_conditions m.lst_day_mean l.ndvi_mean
                  l.nddi_mean
                location := "Tashkent_Uzbekistan"
                cache_stats := stats }) := by
  refine ⟨?_, ?_, ?_, ?_, ?_⟩
  · rcases modisR with m | e
    · rcases landsatR with l | e
      · rcases hr : riskR m l with r | e
        · exact .inl
            ⟨{ analysis_period_days := days_back
               modis := m
               landsat := l
               risk := r
               labels := assess_conditions m.lst_day_mean l.ndvi_mean
                 l.nddi_mean
               location := "Tashkent_Uzbekistan"
               cache_stats := stats },
             by simp only [get_current_conditions, hr], rfl⟩
        · exact .inr ⟨e, by simp only [get_current_conditions, hr]⟩
      · exact .inr ⟨e, rfl⟩
    · exact .inr ⟨e, rfl⟩
  · rintro e rfl
    rfl
  · rintro m e rfl rfl
    rfl
  · rintro m l e rfl rfl hr
    simp only [get_current_conditions, hr]
  · rintro m l r rfl rfl hr
    simp only [get_current_conditions, hr]

/-- Witness for C8: with a concrete failing Landsat fetch the orchestrator
returns the error envelope carrying the stats snapshot; with all three
steps succeeding it returns the assembled success envelope. -/
theorem orchestrator_envelope_witness :
    get_current_conditions 60 (.ok ⟨30, 2, 5⟩) (.raised "quota exceeded")
        (fun _ _ => .raised "unused") ⟨1, 2, 3, 4⟩
      = .failure "quota exceeded" ⟨1, 2, 3, 4⟩
    ∧ get_current_conditions 60 (.ok ⟨30, 2, 5⟩)
        (.ok ⟨1/10, 1/100, 2/10, 1/100, 9⟩)
        (fun m l => .ok (calculate_dust_risk m.lst_day_mean l.ndvi_mean
          l.nddi_mean)) ⟨1, 2, 3, 4⟩
      = .success
          { analysis_period_days := 60
            modis := ⟨30, 2, 5⟩
            landsat := ⟨1/10, 1/100, 2/10, 1/100, 9⟩
            risk := calculate_dust_risk 30 (1/10) (2/10)
            labels := assess_conditions 30 (1/10) (2/10)
            location := "Tashkent_Uzbekistan"
            cache_stats := ⟨1, 2, 3, 4⟩ } := by
  constructor
  · exact (orchestrator_envelope 60 (.ok ⟨30, 2, 5⟩) (.raised "quota exceeded")
      (fun _ _ => .raised "unused") ⟨1, 2, 3, 4⟩).2.2.1 ⟨30, 2, 5⟩
      "quota exceeded" rfl rfl
  · exact (orchestrator_envelope 60 (.ok ⟨30, 2, 5⟩)
      (.ok ⟨1/10, 1/100, 2/10, 1/100, 9⟩)
      (fun m l => .ok (calculate_dust_risk m.lst_day_mean l.ndvi_mean
        l.nddi_mean)) ⟨1, 2, 3, 4⟩).2.2.2.2 ⟨30, 2, 5⟩
      ⟨1/10, 1/100, 2/10, 1/100, 9⟩ (calculate_dust_risk 30 (1/10) (2/10))
      rfl rfl rfl

/-- Two lists of keyword items, both sorted by name, that are permutations
of one another and have pairwise-distinct names, are equal. -/
theorem sorted_perm_eq_of_nodup_keys (l1 : List (String × PyValue)) :
    ∀ l2 : List (String × PyValue),
      l1.Pairwise (fun a b => kwLE a b = true) →
      l2.Pairwise (fun a b => kwLE a b = true) →
      l1.Perm l2 → (l1.map Prod.fst).Nodup → l1 = l2 := by
  induction l1 with
  | nil =>
    intro l2 _ _ hp _
    exact hp.nil_eq
  | cons a t1 ih =>
    intro l2 hs1 hs2 hp hnd
    cases l2 with
    | nil => exact absurd hp.eq_nil (by simp)
    | cons b t2 =>
      rw [List.map_cons] at hnd
      have hab : a = b := by
        have ha2 : a ∈ b :: t2 := hp.mem_iff.mp (List.mem_cons_self a t1)
        have hb1 : b ∈ a :: t1 := hp.symm.mem_iff.mp (List.mem_cons_self b t2)
        rcases List.mem_cons.mp ha2 with h | ha2'
        · exact h
        rcases List.mem_cons.mp hb1 with h | hb1'
        · exact h.symm
        have h1 : kwLE a b = true := (List.pairwise_cons.mp hs1).1 b hb1'
        have h2 : kwLE b a = true := (List.pairwise_cons.mp hs2).1 a ha2'
        have hfst : a.1 = b.1 :=
          le_antisymm (by simpa [kwLE] using h1) (by simpa [kwLE] using h2)
        have hmem : a.1 ∈ t1.map Prod.fst :=
          List.mem_map.mpr ⟨b, hb1', hfst.symm⟩
        exact absurd hmem (List.nodup_cons.mp hnd).1
      subst hab
      have ht : t1 = t2 :=
        ih t2 (List.pairwise_cons.mp hs1).2 (List.pairwise_cons.mp hs2).2
          hp.cons_inv (List.nodup_cons.mp hnd).2
      rw [ht]

/-- The relation `kwLE` is transitive (names under `String`'s linear order). -/
theorem kwLE_trans (a b c : String × PyValue) :
    kwLE a b → kwLE b c → kwLE a c := by
  simp only [kwLE, decide_eq_true_eq]
  exact le_trans

/-- The relation `kwLE` is total. -/
theorem kwLE_total (a b : String × PyValue) : kwLE a b || kwLE b a := by
  simp only [kwLE]
  rcases le_total a.1 b.1 with h | h <;> simp [h]

/-- Sorting the keyword items does not depend on the insertion order of
keyword items with pairwise-distinct names. -/
theorem sortedKwItems_perm_eq (kw1 kw2 : List (String × PyValue))
    (hperm : kw1.Perm kw2) (hnd : (kw1.map Prod.fst).Nodup) :
    sortedKwItems kw1 = sortedKwItems kw2 := by
  apply sorted_perm_eq_of_nodup_keys
  · simpa using List.sorted_mergeSort kwLE_trans kwLE_total kw1
  · simpa using List.sorted_mergeSort kwLE_trans kwLE_total kw2
  · exact (List.mergeSort_perm kw1 kwLE).trans
      (hperm.trans (List.mergeSort_perm kw2 kwLE).symm)
  · exact (((List.mergeSort_perm kw1 kwLE).map Prod.fst).nodup_iff).mpr hnd

/-- C2: for every operation name and argument values, two calls of
`generate_cache_key` with identical positional arguments and the same set
of keyword name/value pairs — in any keyword insertion order — produce
the same fingerprint: the content string is built from the ordered
positional arguments and the name-sorted keyword items, and the digest is
a function of the content. -/
theorem generate_cache_key_deterministic (digest : String → String)
    (opName : String) (args : List PyValue)
    (kw1 kw2 : List (String × PyValue))
    (hperm : kw1.Perm kw2) (hnd : (kw1.map Prod.fst).Nodup) :
    generate_cache_key digest (PyValue.str opName :: args) kw1
      = generate_cache_key digest (PyValue.str opName :: args) kw2 := by
  unfold generate_cache_key
  rw [sortedKwItems_perm_eq kw1 kw2 hperm hnd]

/-- Witness for C2: the two keyword orders `b=2, a=1` and `a=1, b=2`
yield the same fingerprint for `op('x')`. -/
theorem generate_cache_key_deterministic_witness :
    generate_cache_key id [.str "op", .str "x"]
        [("b", .int 2), ("a", .int 1)]
      = generate_cache_key id [.str "op", .str "x"]
        [("a", .int 1), ("b", .int 2)] :=
  generate_cache_key_deterministic id "op" [.str "x"]
    [("b", .int 2), ("a", .int 1)] [("a", .int 1), ("b", .int 2)]
    (List.Perm.swap ("a", PyValue.int 1) ("b", PyValue.int 2) [])
    (by decide)

/-- The forecast loop produces one entry per remaining day. -/
theorem forecastFrom_length (E : ForecastEnv) (br bt : ℚ) :
    ∀ (n i : Nat) (prev : ℚ), (forecastFrom E br bt i n prev).length = n := by
  intro n
  induction n with
  | zero => intro i prev; rfl
  | succ n ih => intro i prev; simp [forecastFrom, ih]

/-- The forecast loop emits consecutive day indices starting at `i`. -/
theorem forecastFrom_map_index (E : ForecastEnv) (br bt : ℚ) :
    ∀ (n i : Nat) (prev : ℚ),
      (forecastFrom E br bt i n prev).map ForecastDay.day_index
        = List.range' i n := by
  intro n
  induction n with
  | zero => intro i prev; rfl
  | succ n ih =>
    intro i prev
    simp only [forecastFrom, List.map_cons, ih, List.range'_succ]
    rfl

/-- C9: on any base inputs (a successful current-conditions snapshot `c`)
and any requested day count `days > 0`, `generate_forecast` returns a
list of exactly `days` entries whose `day_index` runs 0..days−1 in order,
and whose first entry has `day_name = "Today"`, `confidence = 0.95` and
`tendency = "Current"`. -/
theorem generate_forecast_spec (E : ForecastEnv) (c : Conditions)
    (days : Nat) (hdays : 0 < days) :
    ∃ d t, generate_forecast E (.success c) days = .days (d :: t)
      ∧ (d :: t).length = days
      ∧ (d :: t).map ForecastDay.day_index = List.range days
      ∧ d.day_name = "Today"
      ∧ d.confidence = 95/100
      ∧ d.tendency = "Current" := by
  obtain ⟨n, rfl⟩ : ∃ n, days = n + 1 :=
    ⟨days - 1, (Nat.succ_pred_eq_of_pos hdays).symm⟩
  refine ⟨mkForecastDay E c.risk.dust_risk_index c.modis.lst_day_mean 0 0,
    forecastFrom E c.risk.dust_risk_index c.modis.lst_day_mean 1 n
      (mkForecastDay E c.risk.dust_risk_index c.modis.lst_day_mean 0
        0).risk_score,
    rfl, ?_, ?_, rfl, ?_, rfl⟩
  · show (forecastFrom E c.risk.dust_risk_index c.modis.lst_day_mean 0
        (n + 1) 0).length = n + 1
    exact forecastFrom_length E _ _ (n + 1) 0 0
  · show (forecastFrom E c.risk.dust_risk_index c.modis.lst_day_mean 0
        (n + 1) 0).map ForecastDay.day_index = List.range (n + 1)
    rw [List.range_eq_range']
    exact forecastFrom_map_index E _ _ (n + 1) 0 0
  · show (mkForecastDay E c.risk.dust_risk_index c.modis.lst_day_mean 0
        0).confidence = 95/100
    norm_num [mkForecastDay]

/-- Concrete environment for the C9 witness. -/
def c9env : ForecastEnv :=
  { dayInfo := fun _ => ⟨"2026-10-12", "Monday", "Mon", 285, 10⟩
    rand := fun _ => 1/2
    sin2pi := fun _ => 0 }

/-- Concrete current-conditions snapshot for the C9 witness. -/
def c9conditions : Conditions :=
  { analysis_period_days := 60
    modis := ⟨30, 2, 5⟩
    landsat := ⟨1/10, 1/100, 2/10, 1/100, 9⟩
    risk := calculate_dust_risk 30 (1/10) (2/10)
    labels := assess_conditions 30 (1/10) (2/10)
    location := "Tashkent_Uzbekistan"
    cache_stats := ⟨0, 0, 0, 0⟩ }

/-- Witness for C9: a concrete 7-day forecast on concrete base inputs. -/
theorem generate_forecast_spec_witness :
    ∃ d t, generate_forecast c9env (.success c9conditions) 7 = .days (d :: t)
      ∧ (d :: t).length = 7
      ∧ (d :: t).map ForecastDay.day_index = List.range 7
      ∧ d.day_name = "Today"
      ∧ d.confidence = 95/100
      ∧ d.tendency = "Current" :=
  generate_forecast_spec c9env c9conditions 7 (by decide)

/-- C10: when the underlying current-conditions computation has failed,
`generate_forecast` does not raise: it returns the single-element error
list `[{'error': 'Could not generate forecast', 'reason': ...}]` (no
`ForecastDay` fields). That list is a normal non-`None` return value, so
the memoizing wrapper persists it under the derived key, and every
subsequent forecast call with the same arguments within the 120-minute
forecast TTL — whatever the current conditions are by then — is served
the cached error list without invoking the operation. -/
theorem forecast_error_cached (digest : String → String) (E : ForecastEnv)
    (days : Nat) (err : String) (st : CacheStats)
    (args : List PyValue) (kwargs : List (String × PyValue))
    (s : CacheState) (t tLater : ℚ)
    (hmiss : lookupKV s.entries
        (generate_cache_key digest
          (PyValue.str "generate_forecast" :: args) kwargs) = none)
    (hfresh : tLater - t < 7200) :
    generate_forecast E (.failure err st) days
      = .failed "Could not generate forecast" err
    ∧ (generate_forecast_cached digest E (.failure err st) days args kwargs
        s t true true).1
      = .ok (PyValue.list [PyValue.dict
          [("error", .str "Could not generate forecast"),
           ("reason", .str err)]])
    ∧ (generate_forecast_cached digest E (.failure err st) days args kwargs
        s t true true).2.2 = true
    ∧ lookupKV (generate_forecast_cached digest E (.failure err st) days
        args kwargs s t true true).2.1.entries
        (generate_cache_key digest
          (PyValue.str "generate_forecast" :: args) kwargs)
      = some ⟨.ok (PyValue.list [PyValue.dict
          [("error", .str "Could not generate forecast"),
           ("reason", .str err)]]), t⟩
    ∧ (∀ current2 : Envelope,
        generate_forecast_cached digest E current2 days args kwargs
          (generate_forecast_cached digest E (.failure err st) days args
            kwargs s t true true).2.1 tLater true true
          = (.ok (PyValue.list [PyValue.dict
              [("error", .str "Could not generate forecast"),
               ("reason", .str err)]]),
             { (generate_forecast_cached digest E (.failure err st) days
                 args kwargs s t true true).2.1 with
               stats := (generate_forecast_cached digest E (.failure err st)
                 days args kwargs s t true true).2.1.stats.addHit },
             false)) := by
  set key := generate_cache_key digest
    (PyValue.str "generate_forecast" :: args) kwargs with hkey
  set errPy := PyValue.list [PyValue.dict
    [("error", PyValue.str "Could not generate forecast"),
     ("reason", PyValue.str err)]] with herrPy
  have hgetmiss : SmartCache.get s t key (some 120)
      = (none, { s with stats := s.stats.addMiss }) := by
    unfold SmartCache.get
    dsimp only
    have hv : SmartCache.is_cache_valid s t key
        (ttlSecondsOfMinutes (some 120)) = false := by
      unfold SmartCache.is_cache_valid
      rw [hmiss]
    rw [hv]
    simp
  have hr1 : generate_forecast_cached digest E (.failure err st) days args
      kwargs s t true true
      = (.ok errPy,
         SmartCache.set { s with stats := s.stats.addMiss } t true true key
           errPy, true) := by
    unfold generate_forecast_cached cached_operation
    dsimp only
    rw [hgetmiss]
    rfl
  have hlook2 : lookupKV (generate_forecast_cached digest E (.failure err
      st) days args kwargs s t true true).2.1.entries key
      = some ⟨.ok errPy, t⟩ := by
    rw [hr1]
    show lookupKV (setKV s.entries key ⟨.ok errPy, t⟩) key = _
    exact lookupKV_setKV_self _ _ _
  have hsecond : ∀ (s2 : CacheState) (cur : Envelope),
      lookupKV s2.entries key = some ⟨.ok errPy, t⟩ →
      generate_forecast_cached digest E cur days args kwargs s2 tLater true
        true = (.ok errPy, { s2 with stats := s2.stats.addHit }, false) := by
    intro s2 cur hl
    have hget2 : SmartCache.get s2 tLater key (some 120)
        = (some errPy, { s2 with stats := s2.stats.addHit }) := by
      unfold SmartCache.get
      dsimp only
      have hv : SmartCache.is_cache_valid s2 tLater key
          (ttlSecondsOfMinutes (some 120)) = true := by
        unfold SmartCache.is_cache_valid
        rw [hl]
        norm_num [ttlSecondsOfMinutes, orTruthy]
        exact hfresh
      rw [hv, hl]
      rfl
    unfold generate_forecast_cached cached_operation
    dsimp only
    rw [hget2]
  exact ⟨rfl, by rw [hr1], by rw [hr1], hlook2,
    fun current2 => hsecond _ current2 hlook2⟩

/-- Concrete environment for the C10 witness. -/
def c10env : ForecastEnv :=
  { dayInfo := fun _ => ⟨"2026-10-12", "Monday", "Mon", 285, 10⟩
    rand := fun _ => 1/2
    sin2pi := fun _ => 0 }

/-- Witness for C10: starting from an empty store at time 0, the first
forecast call under a failed current-conditions computation returns and
caches the error list; a repeat call one hour later (within the
120-minute TTL) is served from the cache without invoking the operation,
whatever the conditions are by then. -/
theorem forecast_error_cached_witness :
    (generate_forecast_cached id c10env (.failure "boom" ⟨0, 0, 0, 0⟩) 7
        [.str "self"] [] emptyStore 0 true true).1
      = .ok (PyValue.list [PyValue.dict
          [("error", .str "Could not generate forecast"),
           ("reason", .str "boom")]])
    ∧ (∀ current2 : Envelope,
        (generate_forecast_cached id c10env current2 7 [.str "self"] []
          (generate_forecast_cached id c10env (.failure "boom" ⟨0, 0, 0, 0⟩)
            7 [.str "self"] [] emptyStore 0 true true).2.1
          3600 true true).1
        = .ok (PyValue.list [PyValue.dict
            [("error", .str "Could not generate forecast"),
             ("reason", .str "boom")]])
        ∧ (generate_forecast_cached id c10env current2 7 [.str "self"] []
            (generate_forecast_cached id c10env (.failure "boom"
              ⟨0, 0, 0, 0⟩) 7 [.str "self"] [] emptyStore 0 true true).2.1
            3600 true true).2.2 = false) := by
  have h := forecast_error_cached id c10env 7 "boom" ⟨0, 0, 0, 0⟩
    [.str "self"] [] emptyStore 0 3600 rfl (by norm_num)
  refine ⟨h.2.1, fun current2 => ?_⟩
  rw [h.2.2.2.2 current2]
  exact ⟨rfl, rfl⟩
